import Mathlib

/-!
Shallow embedding of the checkpoint-driven re-run scheduler of
`SA-Utils/lib/SolnCommon/modular_input.py` (class `ModularInput`), and
proofs about it.

The stateful parts are embedded by explicit state passing:
* the filesystem holding checkpoint files is a map from file path to file
  content;
* a file's content is either JSON-parseable (`json.load` succeeds) or not
  (`json.load` raises `ValueError`);
* Python exceptions are an explicit error type, and functions whose Python
  bodies can raise return `Except PyExn _`;
* wall-clock reads (`time.time()`) are injected: pure functions take the
  current time as an `Int` argument, and the run-loop driver threads a
  `clock : Nat → Int` giving the value of each successive wall-clock read.
-/

/-- Python exceptions relevant to the scheduler code paths. -/
inductive PyExn where
  | ioError
  | valueError
  | keyError
  | typeError
  | exc
deriving DecidableEq

/-- JSON values as far as the checkpoint record format needs them:
`json.dump({'last_run': t})` produces an object with one numeric field, and
`json.load` can hand back numbers, strings or objects. -/
inductive Json where
  | num (n : Int)
  | str (s : String)
  | obj (fields : List (String × Json))

/-- Content of a file on disk: either data that `json.load` parses to a
`Json` value, or data it rejects with `ValueError`. -/
inductive FileContent where
  | parseable (j : Json)
  | unparseable

/-- The filesystem visible to the checkpoint store: path → file content,
`none` when no file exists at that path (`open` raises `IOError`). -/
def FS : Type := String → Option FileContent

/-- The empty filesystem: no checkpoint file exists. -/
def emptyFS : FS := fun _ => none

/-- Writing a file: `open(path, 'w')` plus a full dump replaces whatever was
at `path` before. -/
def updateFS (fs : FS) (path : String) (c : FileContent) : FS :=
  fun p => if p = path then some c else fs p

/-- `dict.get(k)`: first binding of `k` in an association list. -/
def dictGet {α : Type} (d : List (String × α)) (k : String) : Option α :=
  (d.find? (fun p => p.1 = k)).map Prod.snd

/-- `dict.get(k, default)`. -/
def dictGetD {α : Type} (d : List (String × α)) (k : String) (dflt : α) : α :=
  (dictGet d k).getD dflt

/-- Stand-in for `hashlib.sha1(stanza).hexdigest()`.  The digest itself is a
Python-library primitive; the checkpoint logic relies only on the file name
being a deterministic function of the stanza, which any fixed fold gives us. -/
def sha1_hexdigest (s : String) : String :=
  String.mk (Nat.toDigits 16 (s.data.foldl (fun a c => (a * 131 + c.toNat) % (2 ^ 32)) 7))

/-- `ModularInput.get_file_path`: `os.path.join(checkpoint_dir,
hashlib.sha1(stanza).hexdigest() + ".json")`. -/
def get_file_path (checkpoint_dir stanza : String) : String :=
  checkpoint_dir ++ "/" ++ sha1_hexdigest stanza ++ ".json"

/-- `ModularInput.last_ran`: open the checkpoint file (missing file raises
`IOError`), `json.load` it (unparseable content raises `ValueError`), and
return `checkpoint_dict['last_run']` (a missing key raises `KeyError`;
subscripting a non-dict raises `TypeError`).  The value, like in Python, is
returned as loaded, with no numeric coercion here. -/
def last_ran (fs : FS) (checkpoint_dir stanza : String) : Except PyExn Json :=
  match fs (get_file_path checkpoint_dir stanza) with
  | none => .error .ioError
  | some .unparseable => .error .valueError
  | some (.parseable j) =>
      match j with
      | .obj fields =>
          match dictGet fields "last_run" with
          | some v => .ok v
          | none => .error .keyError
      | _ => .error .typeError

/-- The numeric use of the loaded `last_run` value (`last_run + interval`,
`last_ran + duration`): a non-numeric stored value raises `TypeError` at
that addition, inside the caller's `try` block. -/
def asNum : Json → Except PyExn Int
  | .num n => .ok n
  | _ => .error .typeError

/-- `ModularInput.is_expired` with an explicit current time:
`True` iff `(last_run + interval) < cur_time`. -/
def is_expired (last_run interval cur_time : Int) : Bool :=
  if last_run + interval < cur_time then true else false

/-- `ModularInput.needs_another_run` with the current time injected: in the
`try` block, read `last_ran` and compare via `is_expired`; the
`except IOError`, `except ValueError` and catch-all `except Exception`
handlers each log and return `True`. -/
def needs_another_run (fs : FS) (checkpoint_dir stanza : String)
    (interval cur_time : Int) : Bool :=
  match (last_ran fs checkpoint_dir stanza).bind asNum with
  | .ok lr => is_expired lr interval cur_time
  | .error .ioError => true
  | .error .valueError => true
  | .error _ => true

/-- `ModularInput.time_to_next_run` with the `time.time()` read injected as
`now`: on a successful checkpoint read, `last_ran + duration - now` floored
at 1; each `except` handler logs and returns 1. -/
def time_to_next_run (fs : FS) (checkpoint_dir stanza : String)
    (duration now : Int) : Int :=
  match (last_ran fs checkpoint_dir stanza).bind asNum with
  | .ok last_ran_v =>
      let last_target_time := last_ran_v + duration
      let time_to_next := last_target_time - now
      if time_to_next < 1 then 1 else time_to_next
  | .error _ => 1

/-- The `try` block of `ModularInput.save_checkpoint`, with fault injection
for the two I/O steps: `open(path, 'w')` can raise before touching the file
(`openFails`), and `json.dump` can raise after the file was opened for
writing, leaving partial, unparseable content behind (`dumpFails`).
Returns the filesystem after the block's side effects together with the
exception the block raised, if any. -/
def save_checkpoint_body (openFails dumpFails : Bool) (fs : FS)
    (checkpoint_dir stanza : String) (last_run : Int) : FS × Option PyExn :=
  if openFails then
    (fs, some .ioError)
  else if dumpFails then
    (updateFS fs (get_file_path checkpoint_dir stanza) .unparseable, some .ioError)
  else
    (updateFS fs (get_file_path checkpoint_dir stanza)
      (.parseable (.obj [("last_run", .num last_run)])), none)

/-- `ModularInput.save_checkpoint`: run the `try` block; the
`except Exception` handler logs ("Failed to save checkpoint directory") and
swallows any exception, so the caller always gets a normal return. -/
def save_checkpoint (openFails dumpFails : Bool) (fs : FS)
    (checkpoint_dir stanza : String) (last_run : Int) : Except PyExn FS :=
  match save_checkpoint_body openFails dumpFails fs checkpoint_dir stanza last_run with
  | (fs', some _e) => .ok fs'
  | (fs', none) => .ok fs'

/-- A cleaned stanza parameter value after field validation: an `IntegerField`
yields a Python `int`, other fields leave the configured string. -/
inductive ParamVal where
  | str (s : String)
  | int (n : Int)
deriving DecidableEq

/-- Python `int(str)`: optional surrounding whitespace, optional single sign,
then a nonempty run of decimal digits; anything else raises `ValueError`. -/
def pyIntOfString (s : String) : Except PyExn Int :=
  let digitsOk : List Char → Bool := fun l => l.all Char.isDigit && !l.isEmpty
  let digitsVal : List Char → Int := fun l =>
    Int.ofNat (l.foldl (fun a c => a * 10 + (c.toNat - 48)) 0)
  let trimmed :=
    ((s.data.dropWhile Char.isWhitespace).reverse.dropWhile Char.isWhitespace).reverse
  match trimmed with
  | '-' :: rest => if digitsOk rest then .ok (-(digitsVal rest)) else .error .valueError
  | '+' :: rest => if digitsOk rest then .ok (digitsVal rest) else .error .valueError
  | l => if digitsOk l then .ok (digitsVal l) else .error .valueError

/-- Python `int(x)` on a cleaned parameter value. -/
def pyInt : ParamVal → Except PyExn Int
  | .int n => .ok n
  | .str s => pyIntOfString s

/-- A validated input stanza: its identifying name (the checkpoint lookup
key) and its cleaned parameter mapping. -/
structure Stanza where
  key : String
  params : List (String × ParamVal)

/-- The `stanza` argument as the checkpoint classmethods receive it: either
a stanza-name string (the documented use), or the cleaned-parameters dict
that `do_run` actually passes. -/
inductive StanzaArg where
  | name (s : String)
  | params (d : List (String × ParamVal))

/-- `last_ran` over the stanza argument actually passed: with a string it
behaves as `last_ran`; with the cleaned-params dict,
`hashlib.sha1(stanza)` inside `get_file_path` raises `TypeError` before
any file is opened. -/
def last_ran_arg (fs : FS) (checkpoint_dir : String) :
    StanzaArg → Except PyExn Json
  | .name s => last_ran fs checkpoint_dir s
  | .params _ => .error .typeError

/-- `save_checkpoint` over the stanza argument actually passed: with the
cleaned-params dict the `TypeError` from `get_file_path` is raised before
`open`, the catch-all handler swallows it, and the store is untouched. -/
def save_checkpoint_arg (openFails dumpFails : Bool) (fs : FS)
    (checkpoint_dir : String) (stanza : StanzaArg) (last_run : Int) :
    Except PyExn FS :=
  match stanza with
  | .name s => save_checkpoint openFails dumpFails fs checkpoint_dir s last_run
  | .params _ => .ok fs

/-- `needs_another_run` as `do_run` invokes it (`cur_time = None`): the
`time.time()` read inside `is_expired` happens only after a successful
checkpoint read, so the clock index advances only in that case; every
`except` handler returns `True`. -/
def needs_another_run_clk (fs : FS) (checkpoint_dir : String)
    (stanza : StanzaArg) (interval : Int) (clock : Nat → Int) (tick : Nat) :
    Bool × Nat :=
  match (last_ran_arg fs checkpoint_dir stanza).bind asNum with
  | .ok lr => (is_expired lr interval (clock tick), tick + 1)
  | .error _ => (true, tick)

/-- `time_to_next_run` as the loop invokes it: the `time.time()` read in
the subtraction happens only after a successful checkpoint read, so the
clock index advances only in that case; every `except` handler returns 1. -/
def time_to_next_run_clk (fs : FS) (checkpoint_dir : String)
    (stanza : StanzaArg) (duration : Int) (clock : Nat → Int) (tick : Nat) :
    Int × Nat :=
  match (last_ran_arg fs checkpoint_dir stanza).bind asNum with
  | .ok last_ran_v =>
      let last_target_time := last_ran_v + duration
      let time_to_next := last_target_time - clock tick
      (if time_to_next < 1 then 1 else time_to_next, tick + 1)
  | .error _ => (1, tick)

/-- Observable events of `do_run`'s scheduling portion: a call to
`save_checkpoint` with the timestamp passed to it, a call to the
user-supplied `run` callback, and a `time.sleep` with its duration. -/
inductive RunEvent where
  | saveCheckpoint (t : Int)
  | runCall
  | sleep (d : Int)
deriving DecidableEq

/-- How `do_run`'s scheduling portion ends: a normal return, `sys.exit`
with a code, an uncaught exception propagating out, or the iteration
budget of the embedding running out while the `while True:` loop is still
going. -/
inductive ExitKind where
  | normal
  | sysExit (code : Nat)
  | raised (e : PyExn)
  | fuelOut
deriving DecidableEq

/-- Result of `do_run`'s scheduling portion: the event trace, the final
filesystem, and how it ended. -/
structure DoRunOut where
  events : List RunEvent
  fs : FS
  exit : ExitKind

/-- The `while True:` loop of `ModularInput.do_run`: each iteration reads
the clock, calls `save_checkpoint` with that time, invokes the `run`
callback (`runOk iter` tells whether it returns or raises; an uncaught
exception propagates and ends the loop), then sleeps for
`time_to_next_run`.  As in the source, the `stanza` handed to
`save_checkpoint` and `time_to_next_run` is the cleaned-parameters dict,
not the stanza name, so both calls fail internally on `hashlib.sha1` of a
dict: the checkpoint write is silently swallowed and the sleep is always
1 second.  `fuel` bounds how many iterations the embedding unfolds;
`tick` indexes successive wall-clock reads. -/
def run_loop (runOk : Nat → Bool) (clock : Nat → Int) (checkpoint_dir : String)
    (stanza : Stanza) (duration : Int) :
    Nat → Nat → Nat → FS → DoRunOut
  | 0, _, _, fs => ⟨[], fs, .fuelOut⟩
  | fuel + 1, iter, tick, fs =>
      let t := clock tick
      match save_checkpoint_arg false false fs checkpoint_dir
          (.params stanza.params) t with
      | .error e => ⟨[.saveCheckpoint t], fs, .raised e⟩
      | .ok fs' =>
          if runOk iter then
            let dt := time_to_next_run_clk fs' checkpoint_dir
              (.params stanza.params) duration clock (tick + 1)
            let rest := run_loop runOk clock checkpoint_dir stanza duration
              fuel (iter + 1) dt.2 fs'
            ⟨.saveCheckpoint t :: .runCall :: .sleep dt.1 :: rest.events,
             rest.fs, rest.exit⟩
          else
            ⟨[.saveCheckpoint t, .runCall], fs', .raised .exc⟩

/-- Scheduling portion of `ModularInput.do_run`, from the point where the
validated stanza list is in hand (XML reading and field validation are host
protocol glue).  Mirrors the source: an empty stanza list only logs; in
single-instance mode the `run` callback is invoked once over all stanzas;
otherwise the first stanza's `duration` is parsed with `int(stanza.get(
'duration', -1))` (a `ValueError` is logged and `sys.exit(1)` aborts), and
the recurring loop is entered only when `duration > 0`, the checkpoint
directory is truthy, and `needs_another_run` says so — otherwise the
stanza is run once and the function returns.  As in the source, the
`stanza` handed to `needs_another_run` is the cleaned-parameters dict, so
that check fails internally on `hashlib.sha1` of a dict and always
reports due. -/
def do_run (runOk : Nat → Bool) (clock : Nat → Int) (fuel : Nat)
    (single_instance : Bool) (checkpoint_dir : String)
    (stanzas : List Stanza) (fs : FS) : DoRunOut :=
  match stanzas with
  | [] => ⟨[], fs, .normal⟩
  | stanza :: _ =>
      if single_instance then
        if runOk 0 then ⟨[.runCall], fs, .normal⟩ else ⟨[.runCall], fs, .raised .exc⟩
      else
        match pyInt (dictGetD stanza.params "duration" (.int (-1))) with
        | .error _e => ⟨[], fs, .sysExit 1⟩
        | .ok duration =>
            let nr := needs_another_run_clk fs checkpoint_dir
              (.params stanza.params) duration clock 0
            if duration > 0 ∧ checkpoint_dir ≠ "" ∧ nr.1 = true then
              run_loop runOk clock checkpoint_dir stanza duration fuel 0 nr.2 fs
            else
              if runOk 0 then ⟨[.runCall], fs, .normal⟩ else ⟨[.runCall], fs, .raised .exc⟩

/-- Sample filesystem with a valid checkpoint for stanza `"db1"` under
directory `"cp"`, recording `last_run = 1000`. -/
def cpFS : FS :=
  updateFS emptyFS (get_file_path "cp" "db1")
    (.parseable (.obj [("last_run", .num 1000)]))

/-- Sample filesystem whose checkpoint file for stanza `"db1"` holds
content that `json.load` rejects. -/
def corruptFS : FS :=
  updateFS emptyFS (get_file_path "cp" "db1") .unparseable

/-- C1 counterexample: the claim asserts that at the exact boundary
`now = last_run + interval` the due check reports due, but `is_expired`
compares with a strict `<`: at `last_run = 0`, `interval = 1`, `now = 1`
(so `now ≥ last_run + interval` and `interval > 0`) it returns `false`. -/
theorem is_expired_boundary_cex :
    is_expired 0 1 1 = false ∧ (0 : Int) < 1 ∧ (0 : Int) + 1 ≤ 1 := by
  refine ⟨rfl, ?_, ?_⟩ <;> decide

/-- C1 (amended): for every `last_run`, every `interval > 0` and every
`now`, `is_expired` returns true exactly when `now > last_run + interval`;
in particular at the boundary `now = last_run + interval` it reports not
due, and for `now < last_run + interval` it returns false. -/
theorem is_expired_strict_due (last_run interval now : Int)
    (_hpos : 0 < interval) :
    is_expired last_run interval now = true ↔ last_run + interval < now := by
  unfold is_expired
  constructor
  · intro h
    by_contra hc
    rw [if_neg hc] at h
    exact Bool.false_ne_true h
  · intro h
    rw [if_pos h]

/-- Witness for C1's amended theorem at `last_run = 0`, `interval = 2`,
`now = 5`. -/
theorem is_expired_strict_due_witness :
    (0 : Int) < 2 ∧ (is_expired 0 2 5 = true ↔ (0 : Int) + 2 < 5) :=
  ⟨by decide, is_expired_strict_due 0 2 5 (by decide)⟩

/-- C2: for every stored `last_run` value `T`, every `duration > 0` and
every `now`, `time_to_next_run` returns `max 1 (T + duration - now)`, and
the result is at least 1. -/
theorem time_to_next_run_eq_max (fs : FS) (checkpoint_dir stanza : String)
    (T duration now : Int)
    (hread : last_ran fs checkpoint_dir stanza = .ok (.num T))
    (_hpos : 0 < duration) :
    time_to_next_run fs checkpoint_dir stanza duration now =
      max 1 (T + duration - now) ∧
    1 ≤ time_to_next_run fs checkpoint_dir stanza duration now := by
  unfold time_to_next_run
  rw [hread]
  show (if T + duration - now < 1 then 1 else T + duration - now) = _ ∧
    1 ≤ (if T + duration - now < 1 then (1 : Int) else T + duration - now)
  constructor
  · split <;> omega
  · split <;> omega

/-- Witness for C2 at the stored checkpoint `last_run = 1000`,
`duration = 300`, `now = 1250` (Scenario B: 50 seconds to the next run). -/
theorem time_to_next_run_eq_max_witness :
    time_to_next_run cpFS "cp" "db1" 300 1250 = max 1 (1000 + 300 - 1250) ∧
    1 ≤ time_to_next_run cpFS "cp" "db1" 300 1250 :=
  time_to_next_run_eq_max cpFS "cp" "db1" 1000 300 1250 rfl (by decide)

/-- C5: when reading the checkpoint fails — no checkpoint file exists
(`IOError`, NotFound) or the content is not the expected record
(`ValueError` or any other exception, Corrupt) — `needs_another_run`
returns true without raising; only a successful read leads to the
`is_expired` comparison. -/
theorem needs_another_run_read_failure (fs : FS)
    (checkpoint_dir stanza : String) (interval now : Int) :
    (fs (get_file_path checkpoint_dir stanza) = none →
      needs_another_run fs checkpoint_dir stanza interval now = true) ∧
    (fs (get_file_path checkpoint_dir stanza) = some .unparseable →
      needs_another_run fs checkpoint_dir stanza interval now = true) ∧
    (∀ e, (last_ran fs checkpoint_dir stanza).bind asNum = .error e →
      needs_another_run fs checkpoint_dir stanza interval now = true) ∧
    (∀ T, (last_ran fs checkpoint_dir stanza).bind asNum = .ok T →
      needs_another_run fs checkpoint_dir stanza interval now =
        is_expired T interval now) := by
  refine ⟨?_, ?_, ?_, ?_⟩
  · intro h
    unfold needs_another_run last_ran
    rw [h]
    rfl
  · intro h
    unfold needs_another_run last_ran
    rw [h]
    rfl
  · intro e h
    unfold needs_another_run
    rw [h]
    cases e <;> rfl
  · intro T h
    unfold needs_another_run
    rw [h]

/-- Witness for C5: NotFound (empty store), Corrupt (unparseable file) and
the successful-read case, each at stanza `"db1"`. -/
theorem needs_another_run_read_failure_witness :
    needs_another_run emptyFS "cp" "db1" 300 1250 = true ∧
    needs_another_run corruptFS "cp" "db1" 300 1250 = true ∧
    needs_another_run cpFS "cp" "db1" 300 1250 = is_expired 1000 300 1250 :=
  ⟨(needs_another_run_read_failure emptyFS "cp" "db1" 300 1250).1 rfl,
   (needs_another_run_read_failure corruptFS "cp" "db1" 300 1250).2.1 rfl,
   (needs_another_run_read_failure cpFS "cp" "db1" 300 1250).2.2.2 1000 rfl⟩

/-- C8: writing a checkpoint with `last_run = T` for a stanza and reading
it back with `last_ran` yields exactly `T`. -/
theorem save_checkpoint_roundtrip (fs fs' : FS)
    (checkpoint_dir stanza : String) (T : Int)
    (hw : save_checkpoint false false fs checkpoint_dir stanza T = .ok fs') :
    last_ran fs' checkpoint_dir stanza = .ok (.num T) := by
  have hfs : fs' = updateFS fs (get_file_path checkpoint_dir stanza)
      (.parseable (.obj [("last_run", .num T)])) :=
    (Except.ok.inj hw).symm
  subst hfs
  unfold last_ran updateFS
  rw [if_pos rfl]
  rfl

/-- Witness for C8: writing `last_run = 7` for stanza `"db1"` on the empty
store and reading it back. -/
theorem save_checkpoint_roundtrip_witness :
    last_ran (updateFS emptyFS (get_file_path "cp" "db1")
      (.parseable (.obj [("last_run", .num 7)]))) "cp" "db1" = .ok (.num 7) :=
  save_checkpoint_roundtrip emptyFS _ "cp" "db1" 7 rfl

/-- C9: a second `save_checkpoint` with the same timestamp leaves the
store exactly as after the first, and each write fully replaces whatever
was at the checkpoint path before (the stored record does not depend on
the prior content). -/
theorem save_checkpoint_idempotent (fs fs₁ : FS)
    (checkpoint_dir stanza : String) (T : Int)
    (hw : save_checkpoint false false fs checkpoint_dir stanza T = .ok fs₁) :
    save_checkpoint false false fs₁ checkpoint_dir stanza T = .ok fs₁ ∧
    fs₁ (get_file_path checkpoint_dir stanza) =
      some (.parseable (.obj [("last_run", .num T)])) := by
  have hfs : fs₁ = updateFS fs (get_file_path checkpoint_dir stanza)
      (.parseable (.obj [("last_run", .num T)])) :=
    (Except.ok.inj hw).symm
  subst hfs
  constructor
  · show Except.ok (updateFS (updateFS fs _ _) _ _) = _
    have hupd : updateFS (updateFS fs (get_file_path checkpoint_dir stanza)
          (.parseable (.obj [("last_run", .num T)])))
        (get_file_path checkpoint_dir stanza)
          (.parseable (.obj [("last_run", .num T)])) =
        updateFS fs (get_file_path checkpoint_dir stanza)
          (.parseable (.obj [("last_run", .num T)])) := by
      funext p
      unfold updateFS
      by_cases hp : p = get_file_path checkpoint_dir stanza
      · rw [if_pos hp, if_pos hp]
      · rw [if_neg hp, if_neg hp]
    rw [hupd]
  · unfold updateFS
    rw [if_pos rfl]

/-- Witness for C9: double write of `last_run = 7` for stanza `"db1"`
starting from the empty store. -/
theorem save_checkpoint_idempotent_witness :
    save_checkpoint false false (updateFS emptyFS (get_file_path "cp" "db1")
        (.parseable (.obj [("last_run", .num 7)]))) "cp" "db1" 7 =
      .ok (updateFS emptyFS (get_file_path "cp" "db1")
        (.parseable (.obj [("last_run", .num 7)]))) ∧
    (updateFS emptyFS (get_file_path "cp" "db1")
        (.parseable (.obj [("last_run", .num 7)]))) (get_file_path "cp" "db1") =
      some (.parseable (.obj [("last_run", .num 7)])) :=
  save_checkpoint_idempotent emptyFS _ "cp" "db1" 7 rfl

/-- C10: `save_checkpoint` never raises to its caller — the catch-all
handler swallows any exception from opening or writing, so for every
fault-injection choice the call returns normally; and when `open` fails
before any content is produced, the stored state is unchanged. -/
theorem save_checkpoint_never_raises (openFails dumpFails : Bool) (fs : FS)
    (checkpoint_dir stanza : String) (T : Int) :
    (∃ fs', save_checkpoint openFails dumpFails fs checkpoint_dir stanza T =
      .ok fs') ∧
    (openFails = true →
      save_checkpoint openFails dumpFails fs checkpoint_dir stanza T = .ok fs) := by
  cases openFails <;> cases dumpFails <;>
    exact ⟨⟨_, rfl⟩, fun h => by first | rfl | exact absurd h (by decide)⟩

/-- Witness for C10: a failing `open` on the empty store returns normally
and leaves the store unchanged. -/
theorem save_checkpoint_never_raises_witness :
    (∃ fs', save_checkpoint true false emptyFS "cp" "db1" 7 = .ok fs') ∧
    save_checkpoint true false emptyFS "cp" "db1" 7 = .ok emptyFS :=
  ⟨(save_checkpoint_never_raises true false emptyFS "cp" "db1" 7).1,
   (save_checkpoint_never_raises true false emptyFS "cp" "db1" 7).2 rfl⟩

/-- C6: a stanza whose duration value does not parse as an integer makes
`do_run` abort with `sys.exit(1)` — a non-zero status — before any run
attempt: no callback call, no checkpoint write, the store untouched. -/
theorem do_run_bad_duration_aborts (runOk : Nat → Bool) (clock : Nat → Int)
    (fuel : Nat) (checkpoint_dir : String) (st : Stanza) (rest : List Stanza)
    (fs : FS) (e : PyExn)
    (hd : pyInt (dictGetD st.params "duration" (.int (-1))) = .error e) :
    (do_run runOk clock fuel false checkpoint_dir (st :: rest) fs).events = [] ∧
    (do_run runOk clock fuel false checkpoint_dir (st :: rest) fs).exit =
      .sysExit 1 ∧
    (do_run runOk clock fuel false checkpoint_dir (st :: rest) fs).fs = fs := by
  simp [do_run, hd]

/-- Witness for C6: Scenario E, duration `"abc"`. -/
theorem do_run_bad_duration_aborts_witness :
    (do_run (fun _ => true) (fun _ => 9) 3 false "cp"
      [⟨"s", [("duration", ParamVal.str "abc")]⟩] emptyFS).events = [] ∧
    (do_run (fun _ => true) (fun _ => 9) 3 false "cp"
      [⟨"s", [("duration", ParamVal.str "abc")]⟩] emptyFS).exit = .sysExit 1 ∧
    (do_run (fun _ => true) (fun _ => 9) 3 false "cp"
      [⟨"s", [("duration", ParamVal.str "abc")]⟩] emptyFS).fs = emptyFS :=
  do_run_bad_duration_aborts (fun _ => true) (fun _ => 9) 3 "cp"
    ⟨"s", [("duration", ParamVal.str "abc")]⟩ [] emptyFS .valueError rfl

/-- C7: when the stanza's duration is absent (Python default `-1`) or
non-positive, `do_run` invokes the `run` callback exactly once and
terminates — no sleep, no re-run, no checkpoint write — ending either
normally or with the callback's own exception. -/
theorem do_run_nonpositive_duration_single_shot (runOk : Nat → Bool)
    (clock : Nat → Int) (fuel : Nat) (single_instance : Bool)
    (checkpoint_dir : String) (st : Stanza) (rest : List Stanza) (fs : FS)
    (d : Int)
    (hd : pyInt (dictGetD st.params "duration" (.int (-1))) = .ok d)
    (hdnp : d ≤ 0) :
    (do_run runOk clock fuel single_instance checkpoint_dir (st :: rest)
      fs).events = [.runCall] ∧
    (do_run runOk clock fuel single_instance checkpoint_dir (st :: rest)
      fs).fs = fs ∧
    ((do_run runOk clock fuel single_instance checkpoint_dir (st :: rest)
        fs).exit = .normal ∨
     (do_run runOk clock fuel single_instance checkpoint_dir (st :: rest)
        fs).exit = .raised .exc) := by
  have hcond : ¬(d > 0 ∧ checkpoint_dir ≠ "" ∧
      (needs_another_run_clk fs checkpoint_dir (.params st.params) d clock
        0).1 = true) := by
    rintro ⟨h, -, -⟩
    omega
  cases single_instance <;> cases hro : runOk 0 <;>
    simp [do_run, hd, hcond, hro]

/-- Witness for C7: a stanza with no duration parameter at all. -/
theorem do_run_nonpositive_duration_single_shot_witness :
    (do_run (fun _ => true) (fun _ => 9) 3 false "cp" [⟨"s", []⟩]
      emptyFS).events = [.runCall] ∧
    (do_run (fun _ => true) (fun _ => 9) 3 false "cp" [⟨"s", []⟩]
      emptyFS).fs = emptyFS ∧
    ((do_run (fun _ => true) (fun _ => 9) 3 false "cp" [⟨"s", []⟩]
        emptyFS).exit = .normal ∨
     (do_run (fun _ => true) (fun _ => 9) 3 false "cp" [⟨"s", []⟩]
        emptyFS).exit = .raised .exc) :=
  do_run_nonpositive_duration_single_shot (fun _ => true) (fun _ => 9) 3
    false "cp" ⟨"s", []⟩ [] emptyFS (-1) rfl (by decide)


/-- Helper: one loop iteration whose callback raises — the checkpoint call
happens (and silently fails on the dict stanza), then the exception
propagates with the store unchanged. -/
theorem run_loop_step_fail (runOk : Nat → Bool) (clock : Nat → Int)
    (checkpoint_dir : String) (stanza : Stanza) (duration : Int)
    (n iter tick : Nat) (fs : FS) (h : runOk iter = false) :
    run_loop runOk clock checkpoint_dir stanza duration (n + 1) iter tick fs =
      ⟨[.saveCheckpoint (clock tick), .runCall], fs, .raised .exc⟩ := by
  simp only [run_loop, save_checkpoint_arg]
  rw [h]
  simp

/-- Helper: one loop iteration whose callback returns — the checkpoint
call happens (and silently fails on the dict stanza), the callback runs,
the sleep is 1 second (the wait computation fails the same way), and the
loop continues on the unchanged store. -/
theorem run_loop_step_ok (runOk : Nat → Bool) (clock : Nat → Int)
    (checkpoint_dir : String) (stanza : Stanza) (duration : Int)
    (n iter tick : Nat) (fs : FS) (h : runOk iter = true) :
    run_loop runOk clock checkpoint_dir stanza duration (n + 1) iter tick fs =
      ⟨.saveCheckpoint (clock tick) :: .runCall :: .sleep 1 ::
        (run_loop runOk clock checkpoint_dir stanza duration n (iter + 1)
          (tick + 1) fs).events,
       (run_loop runOk clock checkpoint_dir stanza duration n (iter + 1)
          (tick + 1) fs).fs,
       (run_loop runOk clock checkpoint_dir stanza duration n (iter + 1)
          (tick + 1) fs).exit⟩ := by
  simp only [run_loop, save_checkpoint_arg, time_to_next_run_clk,
    last_ran_arg, Except.bind]
  rw [h]
  simp

/-- C3 counterexample: stanza `"db1"` with `duration = 300` whose stored
checkpoint says `last_run = 1000`, at `now = 1250` — the due check on the
stored record says not due — yet `do_run` enters the recurring loop and
invokes the `run` callback immediately (checkpoint call, run, 1-second
sleep), because the due check it actually performs receives the
cleaned-params dict, fails on hashing it, and treats the swallowed
`TypeError` as due. -/
theorem do_run_not_due_loop_runs_cex :
    needs_another_run cpFS "cp" "db1" 300 1250 = false ∧
    (do_run (fun _ => true) (fun _ => 1250) 1 false "cp"
      [⟨"db1", [("duration", ParamVal.int 300)]⟩] cpFS).events =
      [.saveCheckpoint 1250, .runCall, .sleep 1] :=
  ⟨rfl, rfl⟩

/-- C3 (amended): even when a checkpoint exists for the stanza name and
its `last_run` says the stanza is not yet due, `do_run` with a positive
parsed duration and a set checkpoint directory enters the recurring loop
and invokes the `run` callback immediately: the CheckDue step receives the
cleaned-params dict, `hashlib.sha1(dict)` raises `TypeError`, and the
catch-all handler reports due, so there is no Skip transition; when the
callback returns, the loop moreover sleeps exactly 1 second, the wait
computation failing the same way. -/
theorem do_run_dict_stanza_always_runs (runOk : Nat → Bool)
    (clock : Nat → Int) (fuel : Nat) (checkpoint_dir : String) (st : Stanza)
    (rest : List Stanza) (fs : FS) (d lr : Int)
    (hd : pyInt (dictGetD st.params "duration" (.int (-1))) = .ok d)
    (hdpos : 0 < d) (hcd : checkpoint_dir ≠ "")
    (_hread : (last_ran fs checkpoint_dir st.key).bind asNum = .ok lr)
    (_hnotdue : clock 0 < lr + d) (hfuel : 1 ≤ fuel) :
    (∃ r, (do_run runOk clock fuel false checkpoint_dir (st :: rest)
      fs).events = .saveCheckpoint (clock 0) :: .runCall :: r) ∧
    (runOk 0 = true →
      ∃ r, (do_run runOk clock fuel false checkpoint_dir (st :: rest)
        fs).events = .saveCheckpoint (clock 0) :: .runCall :: .sleep 1 :: r) := by
  obtain ⟨n, rfl⟩ : ∃ n, fuel = n + 1 := ⟨fuel - 1, by omega⟩
  have hdo : do_run runOk clock (n + 1) false checkpoint_dir (st :: rest) fs =
      run_loop runOk clock checkpoint_dir st d (n + 1) 0 0 fs := by
    simp [do_run, hd, needs_another_run_clk, last_ran_arg, Except.bind,
      hdpos, hcd]
  rw [hdo]
  cases hro : runOk 0
  · rw [run_loop_step_fail runOk clock checkpoint_dir st d n 0 0 fs hro]
    exact ⟨⟨[], rfl⟩, fun h => absurd h (by simp [hro])⟩
  · rw [run_loop_step_ok runOk clock checkpoint_dir st d n 0 0 fs hro]
    exact ⟨⟨_, rfl⟩, fun _ => ⟨_, rfl⟩⟩

/-- Witness for C3's amended theorem: Scenario B's numbers
(`last_run = 1000`, `duration = 300`, `now = 1250`, not due), with the
callback returning. -/
theorem do_run_dict_stanza_always_runs_witness :
    (∃ r, (do_run (fun _ => true) (fun _ => 1250) 2 false "cp"
      [⟨"db1", [("duration", ParamVal.int 300)]⟩] cpFS).events =
      .saveCheckpoint 1250 :: .runCall :: r) ∧
    ((fun _ : Nat => true) 0 = true →
      ∃ r, (do_run (fun _ => true) (fun _ => 1250) 2 false "cp"
        [⟨"db1", [("duration", ParamVal.int 300)]⟩] cpFS).events =
        .saveCheckpoint 1250 :: .runCall :: .sleep 1 :: r) :=
  do_run_dict_stanza_always_runs (fun _ => true) (fun _ => 1250) 2 "cp"
    ⟨"db1", [("duration", ParamVal.int 300)]⟩ [] cpFS 300 1000 rfl
    (by decide) (by decide) rfl (by decide) (by decide)

/-- C4 (code bug): the loop body passes the cleaned-params dict to
`save_checkpoint`, so `hashlib.sha1(dict)` raises `TypeError` before
`open`, the catch-all handler swallows it, and the promised overwrite
never happens: across any number of iterations, whether the callback
returns or raises, the recurring loop leaves the checkpoint store exactly
as it found it — contradicting the claim (and the loop's own
"Save the checkpoint(s)" intent) that each attempt records `now()` as
`last_run`. -/
theorem run_loop_never_writes_checkpoint (runOk : Nat → Bool)
    (clock : Nat → Int) (checkpoint_dir : String) (stanza : Stanza)
    (duration : Int) :
    ∀ (fuel iter tick : Nat) (fs : FS),
    (run_loop runOk clock checkpoint_dir stanza duration fuel iter tick
      fs).fs = fs := by
  intro fuel
  induction fuel with
  | zero =>
      intro iter tick fs
      rfl
  | succ n ih =>
      intro iter tick fs
      cases hro : runOk iter
      · rw [run_loop_step_fail runOk clock checkpoint_dir stanza duration
          n iter tick fs hro]
      · rw [run_loop_step_ok runOk clock checkpoint_dir stanza duration
          n iter tick fs hro]
        exact ih (iter + 1) (tick + 1) fs
